import Mathlib

/-!
Verification of the electrum-royale SPV verifier (`electrum/verifier.py`) and the
multi-key script generators (`electrum/three_keys/script.py`) against their
specification.  Scripts are hex strings, hashes are byte lists (`List Nat`),
Python exceptions become `Except` error values, and the stateful verifier is an
explicit state-passing step relation.
-/

namespace ElectrumRoyale

/-! ### Bitcoin opcode and push-script helpers -/

/-- Lower-case hex digit for a nibble. -/
def hexDigit (n : Nat) : Char :=
  if n < 10 then Char.ofNat (48 + n) else Char.ofNat (87 + n)

/-- Two-character lower-case hex encoding of a byte, as produced by
`opcodes.OP_X.hex()` in the source. -/
def hexByte (n : Nat) : String :=
  String.mk [hexDigit (n / 16 % 16), hexDigit (n % 16)]

/-- Modelled from the spec: the `opcodes` enum of `electrum/bitcoin.py` is not under
`src/`; these are the standard Bitcoin Script opcode bytes, rendered as the
two-character hex strings that `opcodes.OP_X.hex()` returns. -/
def OP_0 : String := hexByte 0x00

def OP_1 : String := hexByte 0x51

def OP_2 : String := hexByte 0x52

def OP_3 : String := hexByte 0x53

def OP_IF : String := hexByte 0x63

def OP_ELSE : String := hexByte 0x67

def OP_ENDIF : String := hexByte 0x68

def OP_CHECKMULTISIG : String := hexByte 0xae

/-- Modelled from the spec: `push_script` of `electrum/bitcoin.py` is not under
`src/`; the spec says data is pushed "via minimal-push script encoding
(single-byte length prefix for push sizes used here, since keys/sigs are well
under 76 bytes)".  The argument is a hex string encoding `data.length / 2`
bytes, and the result prepends the single length byte. -/
def push_script (data : String) : String :=
  hexByte (data.length / 2) ++ data

/-! ### `three_keys/script.py`: errors and the two-key generator -/

/-- Errors of the script generators.  `threeKeysError` stands for the
`ThreeKeysError` exception (messages elided); `indexError` stands for a Python
`IndexError` escaping from an unguarded `public_keys[0]`. -/
inductive ScriptErr : Type
  | threeKeysError : ScriptErr
  | indexError : ScriptErr
  deriving DecidableEq, Repr

/-- State of `TwoKeysScriptGenerator`: the fixed recovery public key, the
`_recovery_alert_flag` policy field (`None` until a policy is set) and the
witness-flag list. -/
structure TwoKeysScriptGenerator : Type where
  recovery_pubkey : String
  recovery_alert_flag : Option String
  witness_flags : List Nat
  deriving DecidableEq, Repr

namespace TwoKeysScriptGenerator

/-- Constructor `TwoKeysScriptGenerator.__init__(recovery_pubkey)`. -/
def init (recovery_pubkey : String) : TwoKeysScriptGenerator :=
  ⟨recovery_pubkey, none, []⟩

/-- `TwoKeysScriptGenerator.create_redeem_script` (script.py lines 17-29). -/
def create_redeem_script (alert_pubkey recovery_pubkey : String) : String :=
  OP_IF ++ OP_1 ++ OP_ELSE ++ OP_2 ++ OP_ENDIF ++
    push_script alert_pubkey ++ push_script recovery_pubkey ++
    OP_2 ++ OP_CHECKMULTISIG

/-- `TwoKeysScriptGenerator._create_script_sig` (script.py lines 31-38). -/
def create_script_sig (signatures flag redeem_script : String) : String :=
  OP_0 ++ signatures ++ flag ++ push_script redeem_script

/-- `TwoKeysScriptGenerator.get_redeem_script` (script.py lines 40-49).  The
`isinstance(public_keys, list)` test is vacuous in the typed embedding;
`filtered_keys[0]` is guarded by the length-one test, embedded as `headD`. -/
def get_redeem_script (g : TwoKeysScriptGenerator) (public_keys : List String) :
    Except ScriptErr String :=
  if ¬ (public_keys.length = 1 ∨ public_keys.length = 2) then
    .error .threeKeysError
  else
    let filtered_keys := public_keys.filter (fun item => item ≠ g.recovery_pubkey)
    if filtered_keys.length ≠ 1 then
      .error .threeKeysError
    else
      .ok (create_redeem_script (filtered_keys.headD "") g.recovery_pubkey)

/-- `TwoKeysScriptGenerator.get_script_sig` (script.py lines 51-55).  The
policy flag is checked first; a `ThreeKeysError` escaping from
`get_redeem_script` propagates. -/
def get_script_sig (g : TwoKeysScriptGenerator) (signatures public_keys : List String) :
    Except ScriptErr String :=
  match g.recovery_alert_flag with
  | none => .error .threeKeysError
  | some flag =>
    let sigs := String.join (signatures.map push_script)
    (g.get_redeem_script public_keys).map
      (fun redeem_script => create_script_sig sigs flag redeem_script)

/-- `TwoKeysScriptGenerator.set_alert` (script.py lines 57-60). -/
def set_alert (g : TwoKeysScriptGenerator) : TwoKeysScriptGenerator :=
  { g with recovery_alert_flag := some OP_1, witness_flags := [1] }

/-- `TwoKeysScriptGenerator.set_recovery` (script.py lines 62-65). -/
def set_recovery (g : TwoKeysScriptGenerator) : TwoKeysScriptGenerator :=
  { g with recovery_alert_flag := some OP_0, witness_flags := [0] }

end TwoKeysScriptGenerator

/-! ### `three_keys/script.py`: the three-key generator -/

/-- State of `ThreeKeysScriptGenerator`: the fixed recovery and instant public
keys, the `_instant_recovery_alert_flag` policy field and the witness flags. -/
structure ThreeKeysScriptGenerator : Type where
  recovery_pubkey : String
  instant_pubkey : String
  instant_recovery_alert_flag : Option String
  witness_flags : List Nat
  deriving DecidableEq, Repr

namespace ThreeKeysScriptGenerator

/-- Constructor `ThreeKeysScriptGenerator.__init__(recovery_pubkey, instant_pubkey)`. -/
def init (recovery_pubkey instant_pubkey : String) : ThreeKeysScriptGenerator :=
  ⟨recovery_pubkey, instant_pubkey, none, []⟩

/-- `ThreeKeysScriptGenerator.create_redeem_script` (script.py lines 81-98). -/
def create_redeem_script (alert_pubkey instant_pubkey recovery_pubkey : String) : String :=
  OP_IF ++ OP_1 ++ OP_ELSE ++ OP_IF ++ OP_2 ++ OP_ELSE ++ OP_3 ++
    OP_ENDIF ++ OP_ENDIF ++
    push_script alert_pubkey ++ push_script instant_pubkey ++ push_script recovery_pubkey ++
    OP_3 ++ OP_CHECKMULTISIG

/-- `ThreeKeysScriptGenerator._create_script_sig` (script.py lines 100-107). -/
def create_script_sig (signatures flags redeem_script : String) : String :=
  OP_0 ++ signatures ++ flags ++ push_script redeem_script

/-- `ThreeKeysScriptGenerator.get_redeem_script` (script.py lines 109-114).
Only `len(public_keys) > 3` is rejected with `ThreeKeysError`; on the empty
list the unguarded `public_keys[0]` raises `IndexError`, embedded as the
distinct `indexError` value. -/
def get_redeem_script (g : ThreeKeysScriptGenerator) (public_keys : List String) :
    Except ScriptErr String :=
  if public_keys.length > 3 then
    .error .threeKeysError
  else
    match public_keys with
    | [] => .error .indexError
    | pub_key :: _ => .ok (create_redeem_script pub_key g.instant_pubkey g.recovery_pubkey)

/-- `ThreeKeysScriptGenerator.get_script_sig` (script.py lines 116-120). -/
def get_script_sig (g : ThreeKeysScriptGenerator) (signatures public_keys : List String) :
    Except ScriptErr String :=
  match g.instant_recovery_alert_flag with
  | none => .error .threeKeysError
  | some flags =>
    let sigs := String.join (signatures.map push_script)
    (g.get_redeem_script public_keys).map
      (fun redeem_script => create_script_sig sigs flags redeem_script)

/-- `ThreeKeysScriptGenerator.set_alert` (script.py lines 122-125). -/
def set_alert (g : ThreeKeysScriptGenerator) : ThreeKeysScriptGenerator :=
  { g with instant_recovery_alert_flag := some OP_1, witness_flags := [1] }

/-- `ThreeKeysScriptGenerator.set_recovery` (script.py lines 127-130). -/
def set_recovery (g : ThreeKeysScriptGenerator) : ThreeKeysScriptGenerator :=
  { g with instant_recovery_alert_flag := some (OP_0 ++ OP_0), witness_flags := [0, 0] }

/-- `ThreeKeysScriptGenerator.set_instant` (script.py lines 132-135). -/
def set_instant (g : ThreeKeysScriptGenerator) : ThreeKeysScriptGenerator :=
  { g with instant_recovery_alert_flag := some (OP_1 ++ OP_0), witness_flags := [1, 0] }

end ThreeKeysScriptGenerator

/-! ### `verifier.py`: Merkle verification failures and `hash_merkle_root` -/

/-- Failures of the SPV verifier.  In the source (verifier.py lines 44-47)
`MissingBlockHeader`, `MerkleRootMismatch` and `InnerNodeOfSpvProofIsValidTx`
all subclass `MerkleVerificationFailure`; the constructors below tag each
distinct `raise` site, plus `networkError` for an exception escaping the
network calls of `verify_tx_is_in_block`. -/
inductive VerifierErr : Type
  | missingBlockHeader : VerifierErr
  | txNotInBlock : VerifierErr
  | negativeLeafPos : VerifierErr
  | branchItemNot32Bytes : VerifierErr
  | leafPosTooLarge : VerifierErr
  | innerNodeOfSpvProofIsValidTx : VerifierErr
  | networkError : VerifierErr
  deriving DecidableEq, Repr

/-- The three arity failures of `hash_merkle_root` (verifier.py lines 154-164),
as opposed to the anti-forgery `InnerNodeOfSpvProofIsValidTx` trip-wire. -/
def VerifierErr.isArityFailure : VerifierErr → Bool
  | .negativeLeafPos => true
  | .branchItemNot32Bytes => true
  | .leafPosTooLarge => true
  | _ => false

/-- Loop body of `SPV.hash_merkle_root` (verifier.py lines 157-162), over
already hex-decoded byte lists.  `sha256d` (from `electrum/crypto.py`) and the
valid-transaction test of `SPV._raise_if_valid_tx` (via
`electrum/transaction.py`) are not under `src/` and are abstract parameters.
Each step checks the 32-byte item length, combines `sha256d (item ++ h)` when
the low bit of `index` is set and `sha256d (h ++ item)` otherwise, halves
`index`, and raises `InnerNodeOfSpvProofIsValidTx` when the intermediate hash
deserializes as a valid transaction. -/
def hashMerkleLoop (sha256d : List Nat → List Nat) (isValidTx : List Nat → Bool) :
    List (List Nat) → List Nat → Nat → Except VerifierErr (List Nat × Nat)
  | [], h, index => .ok (h, index)
  | item :: rest, h, index =>
    if item.length ≠ 32 then .error .branchItemNot32Bytes
    else if isValidTx (if index &&& 1 = 1 then sha256d (item ++ h) else sha256d (h ++ item)) then
      .error .innerNodeOfSpvProofIsValidTx
    else
      hashMerkleLoop sha256d isValidTx rest
        (if index &&& 1 = 1 then sha256d (item ++ h) else sha256d (h ++ item)) (index >>> 1)

/-- `SPV.hash_merkle_root` (verifier.py lines 145-165), over hex-decoded byte
lists: `hash_decode`/`hash_encode`/`bh2u` of `electrum/bitcoin.py` (not under
`src/`) are pure hex conversions performed at the boundary, so `tx_hash` and
the branch items arrive as byte lists and the root is returned as bytes. -/
def hash_merkle_root (sha256d : List Nat → List Nat) (isValidTx : List Nat → Bool)
    (merkle_branch : List (List Nat)) (tx_hash : List Nat) (leaf_pos_in_tree : Int) :
    Except VerifierErr (List Nat) :=
  if leaf_pos_in_tree < 0 then .error .negativeLeafPos
  else
    match hashMerkleLoop sha256d isValidTx merkle_branch tx_hash leaf_pos_in_tree.toNat with
    | .error e => .error e
    | .ok (h, index) => if index ≠ 0 then .error .leafPosTooLarge else .ok h

/-- Pure combination fold: the value `hash_merkle_root` computes when no check
fires, stated independently so the claim about the combination rule is not a
restatement of the definition. -/
def merkleFold (sha256d : List Nat → List Nat) :
    List (List Nat) → List Nat → Nat → List Nat
  | [], h, _ => h
  | item :: rest, h, index =>
    merkleFold sha256d rest
      (if index &&& 1 = 1 then sha256d (item ++ h) else sha256d (h ++ item)) (index >>> 1)

/-- The intermediate hashes produced after each combination step, in order. -/
def merkleIntermediates (sha256d : List Nat → List Nat) :
    List (List Nat) → List Nat → Nat → List (List Nat)
  | [], _, _ => []
  | item :: rest, h, index =>
    (if index &&& 1 = 1 then sha256d (item ++ h) else sha256d (h ++ item)) ::
      merkleIntermediates sha256d rest
        (if index &&& 1 = 1 then sha256d (item ++ h) else sha256d (h ++ item)) (index >>> 1)

/-! ### `verifier.py`: `verify_tx_is_in_block` -/

/-- The fields of a block header that the verifier reads (`header.get`). -/
structure BlockHeader : Type where
  merkle_root : String
  timestamp : Nat
  deriving DecidableEq, Repr

/-- The fields of a verbose `network.get_block` response that
`verify_tx_is_in_block` reads. -/
structure VerboseBlock : Type where
  height : Int
  tx : List String
  deriving DecidableEq, Repr

/-- `verify_tx_is_in_block` (verifier.py lines 201-216).  The network is
embedded as two response functions: `getTransactionBlockhash` gives the
`blockhash` field of the verbose `get_transaction` response and `getBlock` the
verbose `get_block` response; `none` models an exception, which the
`try/except` re-raises.  With a header present, the function only checks that
the server-reported block has the claimed height and lists `tx_hash`, and
returns the position of `tx_hash` in that list. -/
def verify_tx_is_in_block (getTransactionBlockhash : String → Option String)
    (getBlock : String → Option VerboseBlock) (tx_hash : String)
    (block_header : Option BlockHeader) (block_height : Int) :
    Except VerifierErr Nat :=
  match block_header with
  | none => .error .missingBlockHeader
  | some _ =>
    match getTransactionBlockhash tx_hash with
    | none => .error .networkError
    | some blockhash =>
      match getBlock blockhash with
      | none => .error .networkError
      | some block =>
        if block.height ≠ block_height ∨ tx_hash ∉ block.tx then .error .txNotInBlock
        else .ok (block.tx.indexOf tx_hash)

/-! ### `verifier.py`: the SPV state and its operations -/

/-- The mutable verifier state: `merkle_roots` (txid to verified merkle root,
an association list embedding the dict) and `requested_merkle` (txids with an
in-flight request, a list embedding the set). -/
structure SPVState : Type where
  merkle_roots : List (String × String)
  requested_merkle : List String
  deriving DecidableEq, Repr

namespace SPVState

/-- `SPV._reset` (verifier.py lines 57-60): both containers emptied. -/
def reset : SPVState := ⟨[], []⟩

/-- Membership of a txid among the keys of the `merkle_roots` dict. -/
def hasRoot (s : SPVState) (tx_hash : String) : Bool :=
  s.merkle_roots.any (fun p => p.1 = tx_hash)

/-- Membership of a txid in the `requested_merkle` set. -/
def pending (s : SPVState) (tx_hash : String) : Bool :=
  s.requested_merkle.contains tx_hash

/-- Dict update `self.merkle_roots[tx_hash] = root` followed by
`self.requested_merkle.discard(tx_hash)` (verifier.py lines 134-135); no
suspension point separates the two in the source. -/
def recordVerified (s : SPVState) (tx_hash root : String) : SPVState :=
  ⟨(tx_hash, root) :: s.merkle_roots.filter (fun p => p.1 ≠ tx_hash),
   s.requested_merkle.filter (fun t => t ≠ tx_hash)⟩

/-- Set insertion `self.requested_merkle.add(tx_hash)` (verifier.py line 105). -/
def addRequested (s : SPVState) (tx_hash : String) : SPVState :=
  ⟨s.merkle_roots,
   if s.requested_merkle.contains tx_hash then s.requested_merkle
   else tx_hash :: s.requested_merkle⟩

/-- `self.requested_merkle.discard(tx_hash)` alone, the first line of
`SPV._mark_as_verified` (verifier.py line 109). -/
def discardRequested (s : SPVState) (tx_hash : String) : SPVState :=
  ⟨s.merkle_roots, s.requested_merkle.filter (fun t => t ≠ tx_hash)⟩

/-- `SPV.remove_spv_proof_for_tx` (verifier.py lines 193-195): pop from the
root cache and discard from the pending set. -/
def remove_spv_proof_for_tx (s : SPVState) (tx_hash : String) : SPVState :=
  ⟨s.merkle_roots.filter (fun p => p.1 ≠ tx_hash),
   s.requested_merkle.filter (fun t => t ≠ tx_hash)⟩

/-- The invariant of the spec: a txid is in at most one of the in-flight set
and the verified-root cache. -/
def invariant (s : SPVState) : Prop :=
  ∀ tx_hash : String, ¬ (s.pending tx_hash = true ∧ s.hasRoot tx_hash = true)

end SPVState

/-- The externally visible effects one `_request_proofs` scan cycle schedules:
spawning `_mark_as_verified`, requesting a header chunk, or spawning
`_request_and_verify_single_proof` (a Merkle-branch verification request). -/
inductive ScanAction : Type
  | markVerified : String → ScanAction
  | requestChunk : Int → ScanAction
  | dispatchProof : String → ScanAction
  deriving DecidableEq, Repr

/-- One iteration of the `for tx_hash in unverified` loop of
`SPV._request_proofs` (verifier.py lines 80-106).  An unverified item carries
the txid, its height, and its type tag (the string name; the default is
`NONVAULT`).  `headers` embeds `blockchain.read_header` and `max_checkpoint`
the `constants.net.max_checkpoint()` bound. -/
def request_proofs_step (local_height : Int) (headers : Int → Option BlockHeader)
    (max_checkpoint : Int) (s : SPVState) (item : String × Int × String) :
    SPVState × List ScanAction :=
  let (tx_hash, tx_height, tx_type) := item
  if s.pending tx_hash ∨ s.hasRoot tx_hash then (s, [])
  else if tx_height ≤ 0 ∨ tx_height > local_height then (s, [])
  else if tx_type = "ALERT_PENDING" ∨ tx_type = "ALERT_RECOVERED" then
    (s, [.markVerified tx_hash])
  else
    match headers tx_height with
    | none => (s, if tx_height < max_checkpoint then [.requestChunk tx_height] else [])
    | some _ => (s.addRequested tx_hash, [.dispatchProof tx_hash])

/-- The whole scan of `SPV._request_proofs` over the unverified transactions,
threading the state and collecting the scheduled actions. -/
def request_proofs (local_height : Int) (headers : Int → Option BlockHeader)
    (max_checkpoint : Int) :
    SPVState → List (String × Int × String) → SPVState × List ScanAction
  | s, [] => (s, [])
  | s, item :: rest =>
    let stepRes := request_proofs_step local_height headers max_checkpoint s item
    let restRes := request_proofs local_height headers max_checkpoint stepRes.1 rest
    (restRes.1, stepRes.2 ++ restRes.2)

/-- The verifier state transitions observable at suspension points: a scan
cycle of `_request_proofs`, the success path of
`_request_and_verify_single_proof` (lines 134-135), the failure path of the
same coroutine (`GracefulDisconnect` leaves the state untouched), the discard
of `_mark_as_verified` (line 109), `remove_spv_proof_for_tx` as called from
`_maybe_undo_verifications`, and `_reset`. -/
inductive SPVStep : SPVState → SPVState → Prop
  | scan (s : SPVState) (local_height : Int) (headers : Int → Option BlockHeader)
      (max_checkpoint : Int) (unverified : List (String × Int × String)) :
      SPVStep s (request_proofs local_height headers max_checkpoint s unverified).1
  | verifySuccess (s : SPVState) (tx_hash root : String) :
      SPVStep s (s.recordVerified tx_hash root)
  | verifyFail (s : SPVState) : SPVStep s s
  | markVerified (s : SPVState) (tx_hash : String) :
      SPVStep s (s.discardRequested tx_hash)
  | removeProof (s : SPVState) (tx_hash : String) :
      SPVStep s (s.remove_spv_proof_for_tx tx_hash)
  | resetState (s : SPVState) : SPVStep s SPVState.reset

/-- States reachable from the freshly reset verifier. -/
inductive SPVReachable : SPVState → Prop
  | init : SPVReachable SPVState.reset
  | step {s s' : SPVState} : SPVReachable s → SPVStep s s' → SPVReachable s'

/-! ### Theorems: script generators -/

/-- Concrete hex renderings of the opcode constants. -/
theorem opcode_hex_values :
    OP_0 = "00" ∧ OP_1 = "51" ∧ OP_2 = "52" ∧ OP_3 = "53" ∧ OP_IF = "63" ∧
      OP_ELSE = "67" ∧ OP_ENDIF = "68" ∧ OP_CHECKMULTISIG = "ae" := by
  refine ⟨?_, ?_, ?_, ?_, ?_, ?_, ?_, ?_⟩ <;> decide

/-- Single-byte length prefix of a 33-byte push. -/
theorem hexByte_33 : hexByte 33 = "21" := by decide

/-- C4: for 33-byte (66 hex character) public keys,
`ThreeKeysScriptGenerator.create_redeem_script` is the literal concatenation
OP_IF OP_1 OP_ELSE OP_IF OP_2 OP_ELSE OP_3 OP_ENDIF OP_ENDIF, the three keys
each pushed with the minimal single-byte length prefix 0x21, then OP_3 and
OP_CHECKMULTISIG. -/
theorem threeKeys_create_redeem_script_layout (p1 p2 p3 : String)
    (h1 : p1.length = 66) (h2 : p2.length = 66) (h3 : p3.length = 66) :
    ThreeKeysScriptGenerator.create_redeem_script p1 p2 p3 =
      "63" ++ "51" ++ "67" ++ "63" ++ "52" ++ "67" ++ "53" ++ "68" ++ "68" ++
        ("21" ++ p1) ++ ("21" ++ p2) ++ ("21" ++ p3) ++ "53" ++ "ae" := by
  obtain ⟨e0, e1, e2, e3, eIf, eElse, eEnd, eCms⟩ := opcode_hex_values
  simp only [ThreeKeysScriptGenerator.create_redeem_script, push_script,
    h1, h2, h3, e1, e2, e3, eIf, eElse, eEnd, eCms]
  norm_num [hexByte_33]

/-- Witness for C4 at three concrete 33-byte compressed keys. -/
theorem threeKeys_create_redeem_script_layout_witness :
    ThreeKeysScriptGenerator.create_redeem_script
        "020202020202020202020202020202020202020202020202020202020202020202"
        "030303030303030303030303030303030303030303030303030303030303030303"
        "020000000000000000000000000000000000000000000000000000000000000001" =
      "63" ++ "51" ++ "67" ++ "63" ++ "52" ++ "67" ++ "53" ++ "68" ++ "68" ++
        ("21" ++ "020202020202020202020202020202020202020202020202020202020202020202") ++
        ("21" ++ "030303030303030303030303030303030303030303030303030303030303030303") ++
        ("21" ++ "020000000000000000000000000000000000000000000000000000000000000001") ++
        "53" ++ "ae" :=
  threeKeys_create_redeem_script_layout
    "020202020202020202020202020202020202020202020202020202020202020202"
    "030303030303030303030303030303030303030303030303030303030303030303"
    "020000000000000000000000000000000000000000000000000000000000000001"
    (by decide) (by decide) (by decide)

/-- C9: the three-key `get_redeem_script` only looks at the first supplied key
and the instant/recovery keys fixed at construction; for any non-empty list of
at most three keys it returns `create_redeem_script` of the head. -/
theorem threeKeys_get_redeem_script_uses_first_key (recovery_pubkey instant_pubkey : String)
    (public_keys : List String) (hne : public_keys ≠ []) (hlen : public_keys.length ≤ 3) :
    (ThreeKeysScriptGenerator.init recovery_pubkey instant_pubkey).get_redeem_script
        public_keys =
      .ok (ThreeKeysScriptGenerator.create_redeem_script (public_keys.headD "")
        instant_pubkey recovery_pubkey) := by
  match public_keys, hne with
  | k :: rest, _ =>
    simp only [List.length_cons] at hlen
    simp [ThreeKeysScriptGenerator.get_redeem_script, ThreeKeysScriptGenerator.init]
    omega

/-- Witness for C9: the keys at positions 1 and 2 are ignored. -/
theorem threeKeys_get_redeem_script_uses_first_key_witness :
    (ThreeKeysScriptGenerator.init "rr" "ii").get_redeem_script ["aa", "xx", "yy"] =
      .ok (ThreeKeysScriptGenerator.create_redeem_script "aa" "ii" "rr") :=
  threeKeys_get_redeem_script_uses_first_key "rr" "ii" ["aa", "xx", "yy"]
    (by decide) (by decide)

/-- C10: the three-key arity check admits the empty list, so `get_redeem_script []`
fails with the `IndexError` of the unguarded `public_keys[0]`, which is a
different failure from the `ThreeKeysError` raised for an oversized list. -/
theorem threeKeys_get_redeem_script_empty_list (recovery_pubkey instant_pubkey : String) :
    (ThreeKeysScriptGenerator.init recovery_pubkey instant_pubkey).get_redeem_script [] =
        .error .indexError ∧
      ScriptErr.indexError ≠ ScriptErr.threeKeysError ∧
      (ThreeKeysScriptGenerator.init recovery_pubkey instant_pubkey).get_redeem_script
        ["k1", "k2", "k3", "k4"] = .error .threeKeysError :=
  ⟨rfl, by decide, rfl⟩

/-- C6: the two-key `get_redeem_script` succeeds exactly when the list has one
or two elements and filtering out the recovery key leaves exactly one key, in
which case it builds the redeem script from that key; otherwise it fails with
`ThreeKeysError`. -/
theorem twoKeys_get_redeem_script_cases (recovery_pubkey : String)
    (public_keys : List String) :
    (((public_keys.length = 1 ∨ public_keys.length = 2) ∧
        (public_keys.filter (fun k => k ≠ recovery_pubkey)).length = 1) →
      (TwoKeysScriptGenerator.init recovery_pubkey).get_redeem_script public_keys =
        .ok (TwoKeysScriptGenerator.create_redeem_script
          ((public_keys.filter (fun k => k ≠ recovery_pubkey)).headD "") recovery_pubkey)) ∧
    (¬ ((public_keys.length = 1 ∨ public_keys.length = 2) ∧
        (public_keys.filter (fun k => k ≠ recovery_pubkey)).length = 1) →
      (TwoKeysScriptGenerator.init recovery_pubkey).get_redeem_script public_keys =
        .error .threeKeysError) := by
  constructor
  · rintro ⟨hlen, hfil⟩
    simp only [ne_eq, decide_not] at hfil
    simp [TwoKeysScriptGenerator.get_redeem_script, TwoKeysScriptGenerator.init, hlen, hfil]
  · intro hbad
    by_cases hlen : public_keys.length = 1 ∨ public_keys.length = 2
    · have hfil : ¬ (public_keys.filter (fun k => k ≠ recovery_pubkey)).length = 1 :=
        fun h => hbad ⟨hlen, h⟩
      simp only [ne_eq, decide_not] at hfil
      simp [TwoKeysScriptGenerator.get_redeem_script, TwoKeysScriptGenerator.init, hlen, hfil]
    · simp [TwoKeysScriptGenerator.get_redeem_script, TwoKeysScriptGenerator.init, hlen]

/-- Witness for C6: both the success branch and a duplicate-recovery failure. -/
theorem twoKeys_get_redeem_script_cases_witness :
    (TwoKeysScriptGenerator.init "rr").get_redeem_script ["aa"] =
        .ok (TwoKeysScriptGenerator.create_redeem_script "aa" "rr") ∧
      (TwoKeysScriptGenerator.init "rr").get_redeem_script ["rr", "rr"] =
        .error .threeKeysError := by
  constructor
  · have h := (twoKeys_get_redeem_script_cases "rr" ["aa"]).1 (by constructor <;> decide)
    simpa using h
  · exact (twoKeys_get_redeem_script_cases "rr" ["rr", "rr"]).2 (by decide)

/-- The two-key redeem script only depends on the recovery key, not on the
policy flag, so setting a policy does not change it. -/
theorem twoKeys_get_redeem_script_congr (g g' : TwoKeysScriptGenerator)
    (h : g.recovery_pubkey = g'.recovery_pubkey) (public_keys : List String) :
    g.get_redeem_script public_keys = g'.get_redeem_script public_keys := by
  simp only [TwoKeysScriptGenerator.get_redeem_script, h]

/-- C5: with no policy set, the two-key `get_script_sig` fails with
`ThreeKeysError`; after `set_alert` it returns OP_0, the pushed signatures in
order, the flag OP_1, then the pushed redeem script; after `set_recovery` the
flag is OP_0 instead. -/
theorem twoKeys_get_script_sig_policy (recovery_pubkey : String)
    (signatures public_keys : List String) (redeem_script : String)
    (hrs : (TwoKeysScriptGenerator.init recovery_pubkey).get_redeem_script public_keys =
      .ok redeem_script) :
    (TwoKeysScriptGenerator.init recovery_pubkey).get_script_sig signatures public_keys =
        .error .threeKeysError ∧
      ((TwoKeysScriptGenerator.init recovery_pubkey).set_alert).get_script_sig
          signatures public_keys =
        .ok ("00" ++ String.join (signatures.map push_script) ++ "51" ++
          push_script redeem_script) ∧
      ((TwoKeysScriptGenerator.init recovery_pubkey).set_recovery).get_script_sig
          signatures public_keys =
        .ok ("00" ++ String.join (signatures.map push_script) ++ "00" ++
          push_script redeem_script) := by
  obtain ⟨e0, e1, _⟩ := opcode_hex_values
  have ha : ((TwoKeysScriptGenerator.init recovery_pubkey).set_alert).get_redeem_script
      public_keys = .ok redeem_script := by
    rw [twoKeys_get_redeem_script_congr
      ((TwoKeysScriptGenerator.init recovery_pubkey).set_alert)
      (TwoKeysScriptGenerator.init recovery_pubkey) rfl]
    exact hrs
  have hr : ((TwoKeysScriptGenerator.init recovery_pubkey).set_recovery).get_redeem_script
      public_keys = .ok redeem_script := by
    rw [twoKeys_get_redeem_script_congr
      ((TwoKeysScriptGenerator.init recovery_pubkey).set_recovery)
      (TwoKeysScriptGenerator.init recovery_pubkey) rfl]
    exact hrs
  simp only [TwoKeysScriptGenerator.set_alert, TwoKeysScriptGenerator.init, e0, e1] at ha
  simp only [TwoKeysScriptGenerator.set_recovery, TwoKeysScriptGenerator.init, e0, e1] at hr
  refine ⟨rfl, ?_, ?_⟩
  · simp [TwoKeysScriptGenerator.get_script_sig, TwoKeysScriptGenerator.set_alert,
      TwoKeysScriptGenerator.init, ha, TwoKeysScriptGenerator.create_script_sig, e0, e1,
      Except.map]
  · simp [TwoKeysScriptGenerator.get_script_sig, TwoKeysScriptGenerator.set_recovery,
      TwoKeysScriptGenerator.init, hr, TwoKeysScriptGenerator.create_script_sig, e0,
      Except.map]

/-- Witness for C5 at a concrete recovery key, signature list and key list. -/
theorem twoKeys_get_script_sig_policy_witness :
    (TwoKeysScriptGenerator.init "aa").get_script_sig ["cc"] ["bb"] =
        .error .threeKeysError ∧
      ((TwoKeysScriptGenerator.init "aa").set_alert).get_script_sig ["cc"] ["bb"] =
        .ok ("00" ++ String.join (["cc"].map push_script) ++ "51" ++
          push_script (TwoKeysScriptGenerator.create_redeem_script "bb" "aa")) ∧
      ((TwoKeysScriptGenerator.init "aa").set_recovery).get_script_sig ["cc"] ["bb"] =
        .ok ("00" ++ String.join (["cc"].map push_script) ++ "00" ++
          push_script (TwoKeysScriptGenerator.create_redeem_script "bb" "aa")) :=
  twoKeys_get_script_sig_policy "aa" ["cc"] ["bb"]
    (TwoKeysScriptGenerator.create_redeem_script "bb" "aa") (by rfl)

/-! ### Theorems: Merkle root recomputation -/

/-- When every branch item is 32 bytes and no intermediate hash passes the
valid-transaction test, the loop reduces to the pure fold and halves the index
down to `i / 2 ^ k`. -/
theorem hashMerkleLoop_ok (s : List Nat → List Nat) (v : List Nat → Bool)
    (branch : List (List Nat)) (h0 : List Nat) (i : Nat)
    (h32 : ∀ item ∈ branch, item.length = 32)
    (hv : ∀ m ∈ merkleIntermediates s branch h0 i, v m = false) :
    hashMerkleLoop s v branch h0 i =
      .ok (merkleFold s branch h0 i, i / 2 ^ branch.length) := by
  induction branch generalizing h0 i with
  | nil => simp [hashMerkleLoop, merkleFold]
  | cons item rest ih =>
    have hlen : item.length = 32 := h32 item (by simp)
    have hvh : v (if i &&& 1 = 1 then s (item ++ h0) else s (h0 ++ item)) = false := by
      apply hv
      rw [merkleIntermediates]
      exact List.mem_cons_self _ _
    rw [hashMerkleLoop, if_neg (by simp [hlen]),
      if_neg (by rw [hvh]; exact Bool.false_ne_true), ih, merkleFold]
    · congr 1
      rw [Nat.shiftRight_eq_div_pow, pow_one, Nat.div_div_eq_div_mul, List.length_cons,
        pow_succ, mul_comm]
    · intro x hx
      exact h32 x (by simp [hx])
    · intro m hm
      apply hv
      rw [merkleIntermediates]
      exact List.mem_cons_of_mem _ hm

/-- If some intermediate hash passes the valid-transaction test (and the items
before it are well-formed), the loop aborts with
`InnerNodeOfSpvProofIsValidTx`. -/
theorem hashMerkleLoop_innerNode (s : List Nat → List Nat) (v : List Nat → Bool)
    (branch : List (List Nat)) (h0 : List Nat) (i : Nat)
    (h32 : ∀ item ∈ branch, item.length = 32)
    (hv : ∃ m ∈ merkleIntermediates s branch h0 i, v m = true) :
    hashMerkleLoop s v branch h0 i = .error .innerNodeOfSpvProofIsValidTx := by
  induction branch generalizing h0 i with
  | nil => simp [merkleIntermediates] at hv
  | cons item rest ih =>
    have hlen : item.length = 32 := h32 item (by simp)
    rw [hashMerkleLoop, if_neg (by simp [hlen])]
    by_cases hvh : v (if i &&& 1 = 1 then s (item ++ h0) else s (h0 ++ item)) = true
    · rw [if_pos hvh]
    · rw [if_neg hvh]
      apply ih
      · intro x hx
        exact h32 x (by simp [hx])
      · obtain ⟨m, hm, hvm⟩ := hv
        rw [merkleIntermediates] at hm
        simp only [List.mem_cons] at hm
        rcases hm with hm | hm
        · rw [hm] at hvm
          exact absurd hvm hvh
        · exact ⟨m, hm, hvm⟩

/-- If some branch item is not 32 bytes long, the loop fails (with the bad-item
error or, possibly, an earlier inner-node abort). -/
theorem hashMerkleLoop_err_of_badItem (s : List Nat → List Nat) (v : List Nat → Bool)
    (branch : List (List Nat)) (h0 : List Nat) (i : Nat)
    (hbad : ∃ item ∈ branch, item.length ≠ 32) :
    ∃ e, hashMerkleLoop s v branch h0 i = .error e := by
  induction branch generalizing h0 i with
  | nil => simp at hbad
  | cons item rest ih =>
    rw [hashMerkleLoop]
    by_cases hlen : item.length = 32
    · rw [if_neg (by simp [hlen])]
      by_cases hvh : v (if i &&& 1 = 1 then s (item ++ h0) else s (h0 ++ item)) = true
      · exact ⟨.innerNodeOfSpvProofIsValidTx, by rw [if_pos hvh]⟩
      · rw [if_neg hvh]
        apply ih
        obtain ⟨x, hx, hxl⟩ := hbad
        simp only [List.mem_cons] at hx
        rcases hx with hx | hx
        · rw [hx] at hxl
          exact absurd hlen hxl
        · exact ⟨x, hx, hxl⟩
    · exact ⟨.branchItemNot32Bytes, by rw [if_pos (by simp [hlen])]⟩

/-- C2: over a branch of 32-byte items and a non-negative index,
`hash_merkle_root` combines with `sha256d (item ++ h)` when the low bit of the
running index is set and `sha256d (h ++ item)` otherwise, halving the index
each step (the pure fold `merkleFold`); and it aborts with
`InnerNodeOfSpvProofIsValidTx` as soon as an intermediate hash deserializes as
a valid transaction. -/
theorem hash_merkle_root_combination (s : List Nat → List Nat) (v : List Nat → Bool)
    (branch : List (List Nat)) (tx_hash : List Nat) (i : Int)
    (h32 : ∀ item ∈ branch, item.length = 32) (hi : 0 ≤ i) :
    ((∀ m ∈ merkleIntermediates s branch tx_hash i.toNat, v m = false) →
      hash_merkle_root s v branch tx_hash i =
        if i.toNat < 2 ^ branch.length then .ok (merkleFold s branch tx_hash i.toNat)
        else .error .leafPosTooLarge) ∧
    ((∃ m ∈ merkleIntermediates s branch tx_hash i.toNat, v m = true) →
      hash_merkle_root s v branch tx_hash i = .error .innerNodeOfSpvProofIsValidTx) := by
  constructor
  · intro hv
    rw [hash_merkle_root, if_neg (by omega),
      hashMerkleLoop_ok s v branch tx_hash i.toNat h32 hv]
    by_cases hlt : i.toNat < 2 ^ branch.length
    · rw [if_pos hlt]
      have hz : i.toNat / 2 ^ branch.length = 0 := Nat.div_eq_of_lt hlt
      simp [hz]
    · rw [if_neg hlt]
      have hz : i.toNat / 2 ^ branch.length ≠ 0 := by
        rw [Nat.div_ne_zero_iff (by positivity)]
        omega
      simp [hz]
  · intro hv
    rw [hash_merkle_root, if_neg (by omega),
      hashMerkleLoop_innerNode s v branch tx_hash i.toNat h32 hv]

/-- Witness for C2: a two-level branch with a constant hash function and no
valid-transaction intermediates reduces to the fold. -/
theorem hash_merkle_root_combination_witness :
    hash_merkle_root (fun _ => [0]) (fun _ => false)
      [List.replicate 32 1, List.replicate 32 3] (List.replicate 32 2) 1 = .ok [0] := by
  rw [(hash_merkle_root_combination (fun _ => [0]) (fun _ => false)
    [List.replicate 32 1, List.replicate 32 3] (List.replicate 32 2) 1
    (by decide) (by decide)).1 (by decide)]
  rfl

/-- C3: `hash_merkle_root` fails on a negative index, on any branch item that
is not exactly 32 bytes, and on an index at least `2 ^ k` for a branch of
length `k`; conversely with 32-byte items and `0 ≤ i < 2 ^ k` it never raises
an arity failure (only, possibly, the inner-node abort). -/
theorem hash_merkle_root_arity_failures (s : List Nat → List Nat) (v : List Nat → Bool)
    (branch : List (List Nat)) (tx_hash : List Nat) (i : Int) :
    (i < 0 → hash_merkle_root s v branch tx_hash i = .error .negativeLeafPos) ∧
    ((∃ item ∈ branch, item.length ≠ 32) →
      ∃ e, hash_merkle_root s v branch tx_hash i = .error e) ∧
    ((0 ≤ i ∧ (∀ item ∈ branch, item.length = 32) ∧ 2 ^ branch.length ≤ i.toNat) →
      ∃ e, hash_merkle_root s v branch tx_hash i = .error e) ∧
    ((0 ≤ i ∧ (∀ item ∈ branch, item.length = 32) ∧ i.toNat < 2 ^ branch.length) →
      ∀ e, hash_merkle_root s v branch tx_hash i = .error e →
        e.isArityFailure = false) := by
  refine ⟨?_, ?_, ?_, ?_⟩
  · intro hneg
    rw [hash_merkle_root, if_pos hneg]
  · intro hbad
    by_cases hneg : i < 0
    · exact ⟨.negativeLeafPos, by rw [hash_merkle_root, if_pos hneg]⟩
    · obtain ⟨e, he⟩ := hashMerkleLoop_err_of_badItem s v branch tx_hash i.toNat hbad
      exact ⟨e, by rw [hash_merkle_root, if_neg hneg, he]⟩
  · rintro ⟨hi, h32, hge⟩
    by_cases hv : ∃ m ∈ merkleIntermediates s branch tx_hash i.toNat, v m = true
    · exact ⟨.innerNodeOfSpvProofIsValidTx,
        (hash_merkle_root_combination s v branch tx_hash i h32 hi).2 hv⟩
    · push_neg at hv
      simp only [Bool.not_eq_true] at hv
      refine ⟨.leafPosTooLarge, ?_⟩
      rw [(hash_merkle_root_combination s v branch tx_hash i h32 hi).1 hv,
        if_neg (by omega)]
  · rintro ⟨hi, h32, hlt⟩
    intro e he
    by_cases hv : ∃ m ∈ merkleIntermediates s branch tx_hash i.toNat, v m = true
    · rw [(hash_merkle_root_combination s v branch tx_hash i h32 hi).2 hv] at he
      cases he
      rfl
    · push_neg at hv
      simp only [Bool.not_eq_true] at hv
      rw [(hash_merkle_root_combination s v branch tx_hash i h32 hi).1 hv,
        if_pos hlt] at he
      cases he

/-- Witness for C3: a negative leaf position is rejected. -/
theorem hash_merkle_root_arity_failures_witness :
    hash_merkle_root (fun _ => []) (fun _ => false) [] [] (-1) =
      .error .negativeLeafPos :=
  (hash_merkle_root_arity_failures (fun _ => []) (fun _ => false) [] [] (-1)).1 (by decide)

/-! ### Theorems: `verify_tx_is_in_block` trusts the server -/

/-- C1 (refuting the claimed behavior): `verify_tx_is_in_block` recomputes no
Merkle root and never reads the `merkle_root` of the locally held header, so
its outcome is invariant under replacing the header by any other header; in
particular it verifies a transaction purely on the word of the server that the
block at the claimed height lists it, here with a header whose recorded Merkle
root is an arbitrary string unrelated to any recomputation. -/
theorem verify_tx_is_in_block_ignores_header_root :
    (∀ (getTransactionBlockhash : String → Option String)
        (getBlock : String → Option VerboseBlock) (tx_hash : String)
        (h1 h2 : BlockHeader) (block_height : Int),
      verify_tx_is_in_block getTransactionBlockhash getBlock tx_hash (some h1) block_height =
        verify_tx_is_in_block getTransactionBlockhash getBlock tx_hash (some h2) block_height) ∧
    verify_tx_is_in_block (fun _ => some "bh") (fun _ => some ⟨7, ["aa"]⟩) "aa"
      (some ⟨"not a merkle root", 0⟩) 7 = .ok 0 := by
  exact ⟨fun _ _ _ _ _ _ => rfl, rfl⟩

/-! ### Theorems: the pending-request / verified-cache state machine -/

/-- Bool-to-membership reading of `pending`. -/
theorem SPVState.pending_eq_true_iff (s : SPVState) (tx_hash : String) :
    s.pending tx_hash = true ↔ tx_hash ∈ s.requested_merkle :=
  List.elem_iff

/-- Bool-to-membership reading of `hasRoot`. -/
theorem SPVState.hasRoot_eq_true_iff (s : SPVState) (tx_hash : String) :
    s.hasRoot tx_hash = true ↔ ∃ p ∈ s.merkle_roots, p.1 = tx_hash := by
  simp [SPVState.hasRoot, List.any_eq_true]

/-- `hasRoot` only reads the `merkle_roots` field. -/
theorem SPVState.hasRoot_congr {s s' : SPVState} (h : s.merkle_roots = s'.merkle_roots)
    (tx_hash : String) : s.hasRoot tx_hash = s'.hasRoot tx_hash := by
  simp [SPVState.hasRoot, h]

/-- Recording a verified root removes the txid from the pending set. -/
theorem SPVState.pending_recordVerified (s : SPVState) (tx_hash root : String) :
    (s.recordVerified tx_hash root).pending tx_hash = false := by
  rw [Bool.eq_false_iff, Ne, SPVState.pending_eq_true_iff]
  simp [SPVState.recordVerified, List.mem_filter]

/-- `remove_spv_proof_for_tx` clears the txid from both containers. -/
theorem SPVState.remove_clears_both (s : SPVState) (tx_hash : String) :
    (s.remove_spv_proof_for_tx tx_hash).pending tx_hash = false ∧
      (s.remove_spv_proof_for_tx tx_hash).hasRoot tx_hash = false := by
  constructor
  · rw [Bool.eq_false_iff, Ne, SPVState.pending_eq_true_iff]
    simp [SPVState.remove_spv_proof_for_tx, List.mem_filter]
  · rw [Bool.eq_false_iff, Ne, SPVState.hasRoot_eq_true_iff]
    simp [SPVState.remove_spv_proof_for_tx, List.mem_filter]

/-- `recordVerified` preserves the exclusivity invariant. -/
theorem SPVState.invariant_recordVerified (s : SPVState) (tx_hash root : String)
    (h : s.invariant) : (s.recordVerified tx_hash root).invariant := by
  intro t ht
  obtain ⟨hp, hr⟩ := ht
  rw [SPVState.pending_eq_true_iff] at hp
  rw [SPVState.hasRoot_eq_true_iff] at hr
  simp only [SPVState.recordVerified, List.mem_filter, decide_eq_true_eq] at hp
  have hne : t ≠ tx_hash := by
    intro heq
    exact absurd heq (by simpa using hp.2)
  obtain ⟨p, hmem, hfst⟩ := hr
  simp only [SPVState.recordVerified, List.mem_cons, List.mem_filter] at hmem
  rcases hmem with hmem | hmem
  · rw [hmem] at hfst
    exact hne hfst.symm
  · exact h t ⟨(s.pending_eq_true_iff t).mpr hp.1,
      (s.hasRoot_eq_true_iff t).mpr ⟨p, hmem.1, hfst⟩⟩

/-- `addRequested` preserves the invariant when the txid has no cached root. -/
theorem SPVState.invariant_addRequested (s : SPVState) (tx_hash : String)
    (h : s.invariant) (hr : ¬ s.hasRoot tx_hash = true) :
    (s.addRequested tx_hash).invariant := by
  intro t ht
  obtain ⟨hp, hro⟩ := ht
  rw [SPVState.pending_eq_true_iff] at hp
  have hro' : s.hasRoot t = true := hro
  simp only [SPVState.addRequested] at hp
  by_cases hc : s.requested_merkle.contains tx_hash
  · rw [if_pos hc] at hp
    exact h t ⟨(s.pending_eq_true_iff t).mpr hp, hro'⟩
  · rw [if_neg hc] at hp
    simp only [List.mem_cons] at hp
    rcases hp with hp | hp
    · rw [hp] at hro'
      exact hr hro'
    · exact h t ⟨(s.pending_eq_true_iff t).mpr hp, hro'⟩

/-- Dropping entries from the pending set preserves the invariant. -/
theorem SPVState.invariant_discardRequested (s : SPVState) (tx_hash : String)
    (h : s.invariant) : (s.discardRequested tx_hash).invariant := by
  intro t ht
  obtain ⟨hp, hr⟩ := ht
  rw [SPVState.pending_eq_true_iff] at hp
  simp only [SPVState.discardRequested, List.mem_filter, decide_eq_true_eq] at hp
  exact h t ⟨(s.pending_eq_true_iff t).mpr hp.1, hr⟩

/-- `remove_spv_proof_for_tx` preserves the invariant. -/
theorem SPVState.invariant_remove (s : SPVState) (tx_hash : String)
    (h : s.invariant) : (s.remove_spv_proof_for_tx tx_hash).invariant := by
  intro t ht
  obtain ⟨hp, hr⟩ := ht
  rw [SPVState.pending_eq_true_iff] at hp
  rw [SPVState.hasRoot_eq_true_iff] at hr
  simp only [SPVState.remove_spv_proof_for_tx, List.mem_filter, decide_eq_true_eq] at hp
  obtain ⟨p, hmem, hfst⟩ := hr
  simp only [SPVState.remove_spv_proof_for_tx, List.mem_filter] at hmem
  exact h t ⟨(s.pending_eq_true_iff t).mpr hp.1,
    (s.hasRoot_eq_true_iff t).mpr ⟨p, hmem.1, hfst⟩⟩

/-- The freshly reset state satisfies the invariant. -/
theorem SPVState.invariant_reset : SPVState.reset.invariant := by
  intro t ht
  obtain ⟨hp, _⟩ := ht
  rw [SPVState.pending_eq_true_iff] at hp
  simp [SPVState.reset] at hp

/-- A scan-cycle step either leaves the state unchanged or adds a txid that
passed the not-pending-and-not-verified guard. -/
theorem request_proofs_step_cases (local_height : Int) (headers : Int → Option BlockHeader)
    (max_checkpoint : Int) (s : SPVState) (item : String × Int × String) :
    (request_proofs_step local_height headers max_checkpoint s item).1 = s ∨
      (¬ (s.pending item.1 = true ∨ s.hasRoot item.1 = true) ∧
        (request_proofs_step local_height headers max_checkpoint s item).1 =
          s.addRequested item.1) := by
  obtain ⟨tx_hash, tx_height, tx_type⟩ := item
  simp only [request_proofs_step]
  by_cases h1 : s.pending tx_hash = true ∨ s.hasRoot tx_hash = true
  · left; rw [if_pos h1]
  · rw [if_neg h1]
    by_cases h2 : tx_height ≤ 0 ∨ tx_height > local_height
    · left; rw [if_pos h2]
    · rw [if_neg h2]
      by_cases h3 : tx_type = "ALERT_PENDING" ∨ tx_type = "ALERT_RECOVERED"
      · left; rw [if_pos h3]
      · rw [if_neg h3]
        cases hh : headers tx_height with
        | none => left; rfl
        | some hdr => right; exact ⟨h1, rfl⟩

/-- Every full scan cycle preserves the exclusivity invariant. -/
theorem invariant_request_proofs (local_height : Int) (headers : Int → Option BlockHeader)
    (max_checkpoint : Int) (s : SPVState) (unverified : List (String × Int × String))
    (h : s.invariant) :
    (request_proofs local_height headers max_checkpoint s unverified).1.invariant := by
  induction unverified generalizing s with
  | nil => simpa [request_proofs] using h
  | cons item rest ih =>
    simp only [request_proofs]
    apply ih
    rcases request_proofs_step_cases local_height headers max_checkpoint s item with
      he | ⟨hg, he⟩
    · rw [he]; exact h
    · rw [he]
      exact s.invariant_addRequested item.1 h (fun hr => hg (Or.inr hr))

/-- Every observable verifier transition preserves the exclusivity invariant. -/
theorem invariant_SPVStep {s s' : SPVState} (h : s.invariant) (hs : SPVStep s s') :
    s'.invariant := by
  cases hs with
  | scan local_height headers max_checkpoint unverified =>
    exact invariant_request_proofs local_height headers max_checkpoint s unverified h
  | verifySuccess tx_hash root => exact s.invariant_recordVerified tx_hash root h
  | verifyFail => exact h
  | markVerified tx_hash => exact s.invariant_discardRequested tx_hash h
  | removeProof tx_hash => exact s.invariant_remove tx_hash h
  | resetState => exact SPVState.invariant_reset

/-- C7: in every state reachable from reset, a txid is in at most one of the
pending-request set and the verified-root cache; recording a verified root
removes the txid from the pending set; `remove_spv_proof_for_tx` clears both
containers; and the reset state is empty of any txid. -/
theorem spv_pending_verified_exclusive :
    (∀ s : SPVState, SPVReachable s → s.invariant) ∧
      (∀ (s : SPVState) (tx_hash root : String),
        (s.recordVerified tx_hash root).pending tx_hash = false) ∧
      (∀ (s : SPVState) (tx_hash : String),
        (s.remove_spv_proof_for_tx tx_hash).pending tx_hash = false ∧
          (s.remove_spv_proof_for_tx tx_hash).hasRoot tx_hash = false) ∧
      (∀ tx_hash : String,
        SPVState.reset.pending tx_hash = false ∧ SPVState.reset.hasRoot tx_hash = false) := by
  refine ⟨?_, SPVState.pending_recordVerified, SPVState.remove_clears_both, ?_⟩
  · intro s hs
    induction hs with
    | init => exact SPVState.invariant_reset
    | step _ hstep ih => exact invariant_SPVStep ih hstep
  · intro tx_hash
    exact ⟨rfl, rfl⟩

/-- Witness for C7: the invariant at a concrete reachable state, applied to a
concrete txid. -/
theorem spv_pending_verified_exclusive_witness :
    ¬ ((SPVState.reset.recordVerified "aa" "rr").pending "aa" = true ∧
       (SPVState.reset.recordVerified "aa" "rr").hasRoot "aa" = true) :=
  spv_pending_verified_exclusive.1 _
    (SPVReachable.step SPVReachable.init (SPVStep.verifySuccess SPVState.reset "aa" "rr")) "aa"

/-- One scan-loop iteration neither dispatches a proof request for, nor
changes the recorded state of, a txid that is already pending or cached. -/
theorem request_proofs_step_skips (local_height : Int) (headers : Int → Option BlockHeader)
    (max_checkpoint : Int) (s : SPVState) (item : String × Int × String) (tx_hash : String)
    (h : s.pending tx_hash = true ∨ s.hasRoot tx_hash = true) :
    ScanAction.dispatchProof tx_hash ∉
        (request_proofs_step local_height headers max_checkpoint s item).2 ∧
      (request_proofs_step local_height headers max_checkpoint s item).1.pending tx_hash =
        s.pending tx_hash ∧
      (request_proofs_step local_height headers max_checkpoint s item).1.merkle_roots =
        s.merkle_roots := by
  obtain ⟨txh, tx_height, tx_type⟩ := item
  simp only [request_proofs_step]
  by_cases h1 : s.pending txh = true ∨ s.hasRoot txh = true
  · rw [if_pos h1]
    exact ⟨by simp, rfl, rfl⟩
  · have hne : txh ≠ tx_hash := by
      rintro rfl
      exact h1 h
    rw [if_neg h1]
    by_cases h2 : tx_height ≤ 0 ∨ tx_height > local_height
    · rw [if_pos h2]
      exact ⟨by simp, rfl, rfl⟩
    · rw [if_neg h2]
      by_cases h3 : tx_type = "ALERT_PENDING" ∨ tx_type = "ALERT_RECOVERED"
      · rw [if_pos h3]
        exact ⟨by simp, rfl, rfl⟩
      · rw [if_neg h3]
        cases hh : headers tx_height with
        | none =>
          refine ⟨?_, rfl, rfl⟩
          by_cases hc : tx_height < max_checkpoint <;> simp [hh, hc]
        | some hdr =>
          refine ⟨by simp [hh, hne.symm], ?_, rfl⟩
          simp only [hh]
          simp only [SPVState.pending, SPVState.addRequested]
          by_cases hc : s.requested_merkle.contains txh
          · rw [if_pos hc]
          · rw [if_neg hc]
            show List.elem tx_hash (txh :: s.requested_merkle) = _
            rw [List.elem_cons]
            have : (tx_hash == txh) = false := by
              simp [Ne.symm hne]
            rw [this]

/-- C8: a scan cycle of `_request_proofs` never dispatches a Merkle-branch
verification request for a txid that is already in the pending-request set or
the verified-root cache, and leaves that txid's pending status and the whole
root cache unchanged. -/
theorem request_proofs_skips_pending_and_verified (local_height : Int)
    (headers : Int → Option BlockHeader) (max_checkpoint : Int) (s : SPVState)
    (unverified : List (String × Int × String)) (tx_hash : String)
    (h : s.pending tx_hash = true ∨ s.hasRoot tx_hash = true) :
    ScanAction.dispatchProof tx_hash ∉
        (request_proofs local_height headers max_checkpoint s unverified).2 ∧
      (request_proofs local_height headers max_checkpoint s unverified).1.pending tx_hash =
        s.pending tx_hash ∧
      (request_proofs local_height headers max_checkpoint s unverified).1.merkle_roots =
        s.merkle_roots := by
  induction unverified generalizing s with
  | nil => exact ⟨by simp [request_proofs], rfl, rfl⟩
  | cons item rest ih =>
    obtain ⟨hd1, hp1, hr1⟩ :=
      request_proofs_step_skips local_height headers max_checkpoint s item tx_hash h
    have h' :
        (request_proofs_step local_height headers max_checkpoint s item).1.pending tx_hash =
            true ∨
          (request_proofs_step local_height headers max_checkpoint s item).1.hasRoot tx_hash =
            true := by
      rcases h with h | h
      · exact Or.inl (by rw [hp1, h])
      · exact Or.inr (by rw [SPVState.hasRoot_congr hr1, h])
    obtain ⟨hd2, hp2, hr2⟩ := ih _ h'
    refine ⟨?_, ?_, ?_⟩
    · simp only [request_proofs, List.mem_append]
      rintro (hmem | hmem)
      · exact hd1 hmem
      · exact hd2 hmem
    · simp only [request_proofs]
      rw [hp2, hp1]
    · simp only [request_proofs]
      rw [hr2, hr1]

/-- Witness for C8: with `"aa"` already pending and `"vv"` already cached, a
scan over both dispatches nothing for them and leaves them unchanged. -/
theorem request_proofs_skips_pending_and_verified_witness :
    ScanAction.dispatchProof "aa" ∉
        (request_proofs 10 (fun _ => some ⟨"mr", 0⟩) 0 ⟨[("vv", "root")], ["aa"]⟩
          [("aa", 5, "NONVAULT"), ("vv", 5, "NONVAULT")]).2 ∧
      (request_proofs 10 (fun _ => some ⟨"mr", 0⟩) 0 ⟨[("vv", "root")], ["aa"]⟩
          [("aa", 5, "NONVAULT"), ("vv", 5, "NONVAULT")]).1.pending "aa" =
        (⟨[("vv", "root")], ["aa"]⟩ : SPVState).pending "aa" ∧
      (request_proofs 10 (fun _ => some ⟨"mr", 0⟩) 0 ⟨[("vv", "root")], ["aa"]⟩
          [("aa", 5, "NONVAULT"), ("vv", 5, "NONVAULT")]).1.merkle_roots =
        [("vv", "root")] :=
  request_proofs_skips_pending_and_verified 10 (fun _ => some ⟨"mr", 0⟩) 0
    ⟨[("vv", "root")], ["aa"]⟩ [("aa", 5, "NONVAULT"), ("vv", 5, "NONVAULT")] "aa"
    (Or.inl (by decide))

end ElectrumRoyale
